import Mathlib

/-!
Verification development for the omega-fastapi script-correction workflow.

Shallow embedding of `src/app/agent.py` (class `OmegaAgent`), the relevant
parts of `src/app/config.py` (`Settings.MAX_CORRECTION_ATTEMPTS`),
`src/app/model_provider.py` (`call_translator_llm_correction`) and
`src/app/db.py` (`log_interaction`).

External effects are modelled by passing the effectful collaborator in as a
function argument: the OpenAI chat-completion call becomes a function
`ChatRequest → Except ε String` (an `Except.error` models a raised provider
exception), the Supabase insert becomes a fallible function, and Python
exceptions raised by the workflow itself become `Except.error` results or
tagged outcome constructors.  Calls made to the correction capability are
recorded in an explicit trace so that "exactly once / never" claims are
statable.  Methods thread `self` explicitly so that frame claims about the
agent's fields are statable; the Python methods never assign to `self`, so
the threaded value is returned unchanged, exactly as in the source.
-/

deriving instance DecidableEq for Except

/-- Python substring test `pat in s` (the `not in` checks of
`OmegaAgent.validate_script`, agent.py lines 14 and 16). -/
def strContains (s pat : String) : Bool :=
  decide (pat.toList <:+: s.toList)

/-- ASCII whitespace stripped by Python's `str.strip` (CPython also strips
some Unicode space characters, which no claim touches). -/
def isPySpace (c : Char) : Bool :=
  c = ' ' || c = '\t' || c = '\n' || c = '\r' || c = '\x0b' || c = '\x0c'

/-- Strip leading and trailing whitespace from a character list. -/
def stripWs (l : List Char) : List Char :=
  ((l.dropWhile isPySpace).reverse.dropWhile isPySpace).reverse

/-- Split a character list at underscores; used to model CPython underscore
grouping in decimal integer literals (`1_000` is accepted, `_1`, `1_`,
`1__0` are rejected). -/
def splitUnderscore : List Char → List (List Char)
  | [] => [[]]
  | c :: cs =>
    match splitUnderscore cs with
    | [] => [[]]
    | h :: t => if c = '_' then [] :: h :: t else (c :: h) :: t

/-- Value of a list of decimal digit characters, most significant first. -/
def digitsToNat (l : List Char) : Nat :=
  l.foldl (fun a c => 10 * a + (c.toNat - 48)) 0

/-- A digit group between underscores must be nonempty and all digits. -/
def okChunk (c : List Char) : Bool :=
  !c.isEmpty && c.all Char.isDigit

/-- Model of CPython `int(s)` on a string argument (agent.py line 10 applies
`int` to the configuration value): surrounding whitespace is stripped, one
optional sign is allowed, then a nonempty run of decimal digits optionally
grouped by single interior underscores; anything else raises `ValueError`,
modelled as `Except.error` with CPython's message. -/
def pyIntOfString (s : String) : Except String Int :=
  let t := stripWs s.toList
  let signDigits : Bool × List Char :=
    match t with
    | '+' :: r => (false, r)
    | '-' :: r => (true, r)
    | r => (false, r)
  let neg := signDigits.1
  let ds := signDigits.2
  if !ds.isEmpty && (splitUnderscore ds).all okChunk then
    let v : Int := Int.ofNat (digitsToNat (ds.filter (fun c => c ≠ '_')))
    Except.ok (if neg then -v else v)
  else
    Except.error ("invalid literal for int() with base 10: " ++ s)

/-- The `OmegaAgent` object state (agent.py lines 6-10): the fields assigned
in `__init__`. -/
structure OmegaAgent where
  omega_script : String
  model : String
  max_correction_attempts : Int
deriving DecidableEq

/-- Embedding of `OmegaAgent.__init__` (agent.py lines 6-10) together with
config.py line 13.  `env` is the raw environment value of
`MAX_CORRECTION_ATTEMPTS` (`none` = variable unset).  When unset,
`getenv("MAX_CORRECTION_ATTEMPTS", 3)` yields the integer `3`, so
`int(3 or 3) = 3`.  When set, the value is a string `s`; `s or 3` is `3`
exactly when `s` is empty (falsy), otherwise `int(s)` is applied and may
raise `ValueError`, modelled as `Except.error`. -/
def OmegaAgent.init (omega_script model : String) (env : Option String) :
    Except String OmegaAgent :=
  match env with
  | none => Except.ok ⟨omega_script, model, 3⟩
  | some s =>
    if s = "" then Except.ok ⟨omega_script, model, 3⟩
    else (pyIntOfString s).map (fun k => ⟨omega_script, model, k⟩)

/-- Embedding of `OmegaAgent.validate_script` (agent.py lines 12-17).  The
raised `OmegaValidationError` becomes `Except.error` carrying the exact
message; the method returns `self` unchanged (it assigns nothing). -/
def OmegaAgent.validate_script (a : OmegaAgent) :
    Except String Unit × OmegaAgent :=
  if !(strContains a.omega_script "DEFINE_SYMBOLS") then
    (Except.error "Missing DEFINE_SYMBOLS block.", a)
  else if !(strContains a.omega_script "WR_SECT") then
    (Except.error "Missing WR_SECT command.", a)
  else
    (Except.ok (), a)

/-- One chat message of the OpenAI request (model_provider.py). -/
structure ChatMessage where
  role : String
  content : String
deriving DecidableEq

/-- The request handed to `openai.ChatCompletion.acreate`
(model_provider.py): model name, message list and temperature. -/
structure ChatRequest where
  model : String
  messages : List ChatMessage
  temperature : ℚ
deriving DecidableEq

/-- The system message of `call_translator_llm_correction`
(model_provider.py lines 25-32). -/
def correctionSystemMsg : String :=
  "You are an expert in Omega-AGI. Correct and improve the following Omega script based on the provided instructions."

/-- The exact request `call_translator_llm_correction` builds for a given
prompt (model_provider.py lines 25-32): hard-coded model `"gpt-4"`, the fixed
system message, the prompt as user message, temperature 0.1. -/
def correctionRequest (prompt : String) : ChatRequest :=
  { model := "gpt-4"
    messages := [⟨"system", correctionSystemMsg⟩, ⟨"user", prompt⟩]
    temperature := 0.1 }

/-- Embedding of `call_translator_llm_correction` (model_provider.py lines
25-32): build the request and hand it to the provider `acreate`; the
provider's result (content extraction included) or raised error is returned
as is. -/
def call_translator_llm_correction {ε : Type}
    (acreate : ChatRequest → Except ε String) (prompt : String) :
    Except ε String :=
  acreate (correctionRequest prompt)

/-- Outcome of one `OmegaAgent.run` invocation: a raised
`OmegaValidationError` with its message, a provider error propagating
uncaught, or the returned string. -/
inductive RunOutcome (ε : Type) where
  | validationError (msg : String)
  | providerError (e : ε)
  | ok (result : String)
deriving DecidableEq

/-- Result of `OmegaAgent.run` including the trace of prompts passed to the
correction capability and the post-state of `self`. -/
structure RunResult (ε : Type) where
  outcome : RunOutcome ε
  correction_calls : List String
  post : OmegaAgent

/-- Embedding of `OmegaAgent.run` (agent.py lines 19-24): validate the
script (an error propagates, so the run ends with that validation error and
no correction call), then call `call_translator_llm_correction` once with
`self.omega_script` and return its result verbatim.  `correction_calls`
records every prompt handed to the correction capability. -/
def OmegaAgent.run {ε : Type} (a : OmegaAgent)
    (acreate : ChatRequest → Except ε String) : RunResult ε :=
  match a.validate_script with
  | (Except.error m, a1) => ⟨RunOutcome.validationError m, [], a1⟩
  | (Except.ok _, a1) =>
    match call_translator_llm_correction acreate a1.omega_script with
    | Except.error e => ⟨RunOutcome.providerError e, [a1.omega_script], a1⟩
    | Except.ok r => ⟨RunOutcome.ok r, [a1.omega_script], a1⟩

/-- What `log_interaction` did: either the insert succeeded or the caught
exception was downgraded to a printed warning. -/
inductive LogOutcome where
  | logged
  | warned (e : String)
deriving DecidableEq

/-- Embedding of `log_interaction` (db.py lines 6-11).  `backend` models the
Supabase insert-and-execute of the prompt/response/model row and may raise
(`Except.error`).  The outer `Except` is the function's own exception
channel: an `Except.error` there would model `log_interaction` itself
raising, which the `try`/`except Exception` makes impossible — any backend
failure is caught and turned into a warning. -/
def log_interaction (backend : String → String → String → Except String Unit)
    (prompt response model : String) : Except String LogOutcome :=
  match backend prompt response model with
  | Except.ok _ => Except.ok LogOutcome.logged
  | Except.error e => Except.ok (LogOutcome.warned e)

/-- Helper: `validate_script` always returns `self` as its second component
(the method body raises or returns, assigning nothing). -/
theorem validate_script_pair (a : OmegaAgent) :
    a.validate_script = ((a.validate_script).1, a) := by
  cases h1 : strContains a.omega_script "DEFINE_SYMBOLS" <;>
    cases h2 : strContains a.omega_script "WR_SECT" <;>
      simp [OmegaAgent.validate_script, h1, h2]

/-- C1: for every script containing both "DEFINE_SYMBOLS" and "WR_SECT",
`run` invokes the correction capability exactly once, with the full
unmodified script as its input, and returns the capability's output
verbatim, whatever that output is. -/
theorem run_valid_calls_correction_once {ε : Type} (s mdl : String) (n : Int)
    (acreate : ChatRequest → Except ε String)
    (h1 : strContains s "DEFINE_SYMBOLS" = true)
    (h2 : strContains s "WR_SECT" = true) :
    ((OmegaAgent.mk s mdl n).run acreate).correction_calls = [s] ∧
    (∀ r, acreate (correctionRequest s) = Except.ok r →
      ((OmegaAgent.mk s mdl n).run acreate).outcome = RunOutcome.ok r) := by
  constructor
  · cases hr : acreate (correctionRequest s) <;>
      simp [OmegaAgent.run, OmegaAgent.validate_script,
        call_translator_llm_correction, h1, h2, hr]
  · intro r hr
    simp [OmegaAgent.run, OmegaAgent.validate_script,
      call_translator_llm_correction, h1, h2, hr]

/-- Witness for C1 at the script "DEFINE_SYMBOLS WR_SECT" with a capability
returning "corrected". -/
theorem run_valid_calls_correction_once_witness :
    ((OmegaAgent.mk "DEFINE_SYMBOLS WR_SECT" "m" 3).run
        (fun _ => (Except.ok "corrected" : Except String String))).correction_calls
      = ["DEFINE_SYMBOLS WR_SECT"] ∧
    ((OmegaAgent.mk "DEFINE_SYMBOLS WR_SECT" "m" 3).run
        (fun _ => (Except.ok "corrected" : Except String String))).outcome
      = RunOutcome.ok "corrected" :=
  ⟨(run_valid_calls_correction_once "DEFINE_SYMBOLS WR_SECT" "m" 3
      (fun _ => Except.ok "corrected") (by decide) (by decide)).1,
   (run_valid_calls_correction_once "DEFINE_SYMBOLS WR_SECT" "m" 3
      (fun _ => Except.ok "corrected") (by decide) (by decide)).2 "corrected" rfl⟩

/-- C2: for every script not containing "DEFINE_SYMBOLS" (the empty string
included, and whether or not "WR_SECT" is present), `run` fails with the
validation error "Missing DEFINE_SYMBOLS block.". -/
theorem run_missing_define_symbols {ε : Type} (s mdl : String) (n : Int)
    (acreate : ChatRequest → Except ε String)
    (h : strContains s "DEFINE_SYMBOLS" = false) :
    ((OmegaAgent.mk s mdl n).run acreate).outcome
      = RunOutcome.validationError "Missing DEFINE_SYMBOLS block." := by
  simp [OmegaAgent.run, OmegaAgent.validate_script, h]

/-- Witness for C2 at the script "WR_SECT only", which contains "WR_SECT"
but not "DEFINE_SYMBOLS". -/
theorem run_missing_define_symbols_witness :
    ((OmegaAgent.mk "WR_SECT only" "m" 3).run
        (fun _ => (Except.ok "o" : Except String String))).outcome
      = RunOutcome.validationError "Missing DEFINE_SYMBOLS block." :=
  run_missing_define_symbols "WR_SECT only" "m" 3 _ (by decide)

/-- C3: for every script containing "DEFINE_SYMBOLS" but not "WR_SECT",
`run` fails with the validation error "Missing WR_SECT command.". -/
theorem run_missing_wr_sect {ε : Type} (s mdl : String) (n : Int)
    (acreate : ChatRequest → Except ε String)
    (h1 : strContains s "DEFINE_SYMBOLS" = true)
    (h2 : strContains s "WR_SECT" = false) :
    ((OmegaAgent.mk s mdl n).run acreate).outcome
      = RunOutcome.validationError "Missing WR_SECT command." := by
  simp [OmegaAgent.run, OmegaAgent.validate_script, h1, h2]

/-- Witness for C3 at the script "DEFINE_SYMBOLS only". -/
theorem run_missing_wr_sect_witness :
    ((OmegaAgent.mk "DEFINE_SYMBOLS only" "m" 3).run
        (fun _ => (Except.ok "o" : Except String String))).outcome
      = RunOutcome.validationError "Missing WR_SECT command." :=
  run_missing_wr_sect "DEFINE_SYMBOLS only" "m" 3 _ (by decide) (by decide)

/-- C4: whenever validation fails, `run` surfaces that validation error
immediately and the correction capability is never invoked (the call trace
is empty). -/
theorem run_invalid_no_correction {ε : Type} (a : OmegaAgent)
    (acreate : ChatRequest → Except ε String) (msg : String)
    (h : (a.validate_script).1 = Except.error msg) :
    (a.run acreate).outcome = RunOutcome.validationError msg ∧
    (a.run acreate).correction_calls = [] := by
  have hp := validate_script_pair a
  rw [h] at hp
  unfold OmegaAgent.run
  rw [hp]
  exact ⟨rfl, rfl⟩

/-- Witness for C4 at the empty script. -/
theorem run_invalid_no_correction_witness :
    ((OmegaAgent.mk "" "m" 3).run
        (fun _ => (Except.ok "o" : Except String String))).outcome
      = RunOutcome.validationError "Missing DEFINE_SYMBOLS block." ∧
    ((OmegaAgent.mk "" "m" 3).run
        (fun _ => (Except.ok "o" : Except String String))).correction_calls = [] :=
  run_invalid_no_correction (OmegaAgent.mk "" "m" 3)
    (fun _ => Except.ok "o") "Missing DEFINE_SYMBOLS block." (by decide)

/-- C5, counterexample: with MAX_CORRECTION_ATTEMPTS set to the non-numeric
string "abc", constructing the agent fails (Python `int("abc")` raises
`ValueError`), so `max_correction_attempts` does not default to 3 as the
claim states. -/
theorem init_nonnumeric_counterexample :
    (OmegaAgent.init "x" "m" (some "abc")).isOk = false := by decide

/-- C5 as amended: when MAX_CORRECTION_ATTEMPTS is unset or set to the
empty string, `max_correction_attempts` is 3; when set to a string `int`
accepts, it is that integer; when set to a nonempty string `int` rejects,
construction fails with the `ValueError` instead of defaulting. -/
theorem init_max_attempts_amended (scr mdl : String) :
    OmegaAgent.init scr mdl none = Except.ok ⟨scr, mdl, 3⟩ ∧
    OmegaAgent.init scr mdl (some "") = Except.ok ⟨scr, mdl, 3⟩ ∧
    (∀ s k, pyIntOfString s = Except.ok k →
      OmegaAgent.init scr mdl (some s) = Except.ok ⟨scr, mdl, k⟩) ∧
    (∀ s e, s ≠ "" → pyIntOfString s = Except.error e →
      OmegaAgent.init scr mdl (some s) = Except.error e) := by
  refine ⟨rfl, rfl, ?_, ?_⟩
  · intro s k hk
    by_cases hs : s = ""
    · subst hs
      rw [show pyIntOfString ""
            = Except.error "invalid literal for int() with base 10: " from rfl] at hk
      exact Except.noConfusion hk
    · simp [OmegaAgent.init, hs, hk, Except.map]
  · intro s e hs he
    simp [OmegaAgent.init, hs, he, Except.map]

/-- Witness for the amended C5: "7" parses to 7 and "abc" raises. -/
theorem init_max_attempts_amended_witness :
    OmegaAgent.init "x" "m" (some "7") = Except.ok ⟨"x", "m", 7⟩ ∧
    OmegaAgent.init "x" "m" (some "abc")
      = Except.error "invalid literal for int() with base 10: abc" :=
  ⟨(init_max_attempts_amended "x" "m").2.2.1 "7" 7 (by decide),
   (init_max_attempts_amended "x" "m").2.2.2 "abc"
     "invalid literal for int() with base 10: abc" (by decide) (by decide)⟩

/-- C6: the outcome and the correction-call trace of `run` are identical for
any two values of `max_correction_attempts`, and at most one correction call
is ever issued — the configured attempt count never influences the run. -/
theorem run_attempts_independent {ε : Type} (s mdl : String) (n n' : Int)
    (acreate : ChatRequest → Except ε String) :
    ((OmegaAgent.mk s mdl n).run acreate).outcome
      = ((OmegaAgent.mk s mdl n').run acreate).outcome ∧
    ((OmegaAgent.mk s mdl n).run acreate).correction_calls
      = ((OmegaAgent.mk s mdl n').run acreate).correction_calls ∧
    ((OmegaAgent.mk s mdl n).run acreate).correction_calls.length ≤ 1 := by
  cases h1 : strContains s "DEFINE_SYMBOLS" <;>
    cases h2 : strContains s "WR_SECT" <;>
      cases hr : acreate (correctionRequest s) <;>
        simp [OmegaAgent.run, OmegaAgent.validate_script,
          call_translator_llm_correction, h1, h2, hr]

/-- C7: for every script that passes validation, a provider error raised by
the text-generation capability propagates uncaught out of `run` — no
fallback or recovery is applied. -/
theorem run_provider_error_propagates {ε : Type} (s mdl : String) (n : Int)
    (acreate : ChatRequest → Except ε String) (e : ε)
    (h1 : strContains s "DEFINE_SYMBOLS" = true)
    (h2 : strContains s "WR_SECT" = true)
    (he : acreate (correctionRequest s) = Except.error e) :
    ((OmegaAgent.mk s mdl n).run acreate).outcome = RunOutcome.providerError e := by
  simp [OmegaAgent.run, OmegaAgent.validate_script,
    call_translator_llm_correction, h1, h2, he]

/-- Witness for C7 with a provider that always raises "boom". -/
theorem run_provider_error_propagates_witness :
    ((OmegaAgent.mk "DEFINE_SYMBOLS WR_SECT" "m" 3).run
        (fun _ => (Except.error "boom" : Except String String))).outcome
      = RunOutcome.providerError "boom" :=
  run_provider_error_propagates "DEFINE_SYMBOLS WR_SECT" "m" 3
    (fun _ => Except.error "boom") "boom" (by decide) (by decide) rfl

/-- C8: `log_interaction` never raises, whatever the logging backend does;
when the backend raises, the failure is caught and downgraded to a
warning. -/
theorem log_interaction_never_raises
    (backend : String → String → String → Except String Unit)
    (p r m : String) :
    (∃ o, log_interaction backend p r m = Except.ok o) ∧
    (∀ e, backend p r m = Except.error e →
      log_interaction backend p r m = Except.ok (LogOutcome.warned e)) := by
  refine ⟨?_, ?_⟩
  · cases hb : backend p r m with
    | error e => exact ⟨LogOutcome.warned e, by simp [log_interaction, hb]⟩
    | ok v => exact ⟨LogOutcome.logged, by simp [log_interaction, hb]⟩
  · intro e he
    simp [log_interaction, he]

/-- Witness for C8 with a backend that always fails with "db down". -/
theorem log_interaction_never_raises_witness :
    log_interaction (fun _ _ _ => Except.error "db down") "p" "r" "m"
      = Except.ok (LogOutcome.warned "db down") :=
  (log_interaction_never_raises (fun _ _ _ => Except.error "db down")
      "p" "r" "m").2 "db down" rfl

/-- C9, counterexample: run the workflow with model identifier
"custom-model" against a provider that reports back the model name it was
given; the provider receives the hard-coded "gpt-4", not the workflow's
model identifier, so the identifier is not passed through to the
text-generation capability. -/
theorem run_model_not_forwarded_counterexample :
    (((OmegaAgent.mk "DEFINE_SYMBOLS WR_SECT" "custom-model" 3).run
        (fun req => (Except.ok req.model : Except String String))).outcome
      = RunOutcome.ok "gpt-4") ∧ "gpt-4" ≠ "custom-model" :=
  ⟨by decide, by decide⟩

/-- C9 as amended: the model identifier supplied to the workflow is accepted
without any validation but is never forwarded to the text-generation
capability — the outcome and call trace of `run` are identical for any two
model identifiers, and the correction request always names the fixed model
"gpt-4". -/
theorem run_model_ignored_amended {ε : Type} (s mdl mdl' : String) (n : Int)
    (acreate : ChatRequest → Except ε String) :
    ((OmegaAgent.mk s mdl n).run acreate).outcome
      = ((OmegaAgent.mk s mdl' n).run acreate).outcome ∧
    ((OmegaAgent.mk s mdl n).run acreate).correction_calls
      = ((OmegaAgent.mk s mdl' n).run acreate).correction_calls ∧
    (correctionRequest s).model = "gpt-4" := by
  refine ⟨?_, ?_, rfl⟩ <;>
    cases h1 : strContains s "DEFINE_SYMBOLS" <;>
      cases h2 : strContains s "WR_SECT" <;>
        cases hr : acreate (correctionRequest s) <;>
          simp [OmegaAgent.run, OmegaAgent.validate_script,
            call_translator_llm_correction, h1, h2, hr]

/-- C10: `run` and `validate_script` leave the agent's fields —
`omega_script`, `model` and `max_correction_attempts` — unchanged, whether
they succeed or fail. -/
theorem run_frame_preserves_fields {ε : Type} (a : OmegaAgent)
    (acreate : ChatRequest → Except ε String) :
    (a.run acreate).post = a ∧ (a.validate_script).2 = a := by
  cases h1 : strContains a.omega_script "DEFINE_SYMBOLS" <;>
    cases h2 : strContains a.omega_script "WR_SECT" <;>
      cases hr : acreate (correctionRequest a.omega_script) <;>
        simp [OmegaAgent.run, OmegaAgent.validate_script,
          call_translator_llm_correction, h1, h2, hr]
